import Mathlib

/-!
Verification of the draftq-upload service (src/app.py): a Flask app with a
POST /api/upload handler, GET /api/health, OPTIONS /api/upload preflight,
and two storage backends (local filesystem / S3) selected once at startup.

The Python code is shallowly embedded: strings stay strings, environment
configuration becomes an explicit `Config`, the two storage backends become
an explicit `Store` state threaded through the handler, failures of the S3
calls become an explicit `S3Behavior` oracle, and the fresh UUID and the
current timestamp become explicit parameters.  Character-level helpers
(`str.strip`, `os.path.splitext`, `str.lower`, werkzeug's
`secure_filename`) are embedded over ASCII, which is the fragment the
claims exercise; Unicode NFKD normalization inside `secure_filename` is the
identity on the ASCII codepoints that survive its `encode("ascii","ignore")`
step and is modelled as such.
-/

namespace DraftQ

/-- Python whitespace characters for ASCII input, as used by `str.strip()`
and `str.split()` with no arguments. -/
def isPySpace (c : Char) : Bool :=
  c == ' ' || c == '\t' || c == '\n' || c == '\x0d' || c == '\x0b' || c == '\x0c'

/-- Drop characters satisfying `p` from both ends of a character list. -/
def stripWhile (p : Char → Bool) (l : List Char) : List Char :=
  ((l.dropWhile p).reverse.dropWhile p).reverse

/-- Python `s.strip()` (ASCII whitespace), as applied to the `name`, `email`
and `company` form fields in `upload` (src/app.py lines 130-132). -/
def pyStrip (s : String) : String :=
  ⟨stripWhile isPySpace s.data⟩

/-- Python `str.lower` on an ASCII character. -/
def pyLowerChar (c : Char) : Char :=
  if 'A' ≤ c && c ≤ 'Z' then Char.ofNat (c.toNat + 32) else c

/-- Python `s.lower()` (ASCII). -/
def pyLower (s : String) : String :=
  ⟨s.data.map pyLowerChar⟩

/-- Index of the last occurrence of `c` in `l`, or `-1` when absent:
Python `str.rfind`. -/
def rfindChar (c : Char) (l : List Char) : Int :=
  match (l.reverse).findIdx? (· == c) with
  | none => -1
  | some i => (l.length : Int) - 1 - (i : Int)

/-- Whether some index `i` with `a < i < b` holds a character of `l` other
than `'.'` — the scan performed by the `while` loop of
`posixpath.splitext`. -/
def hasNonDotBetween (l : List Char) (a b : Int) : Bool :=
  (List.range l.length).any fun i =>
    a < (i : Int) && (i : Int) < b && !(l.getD i '.' == '.')

/-- `os.path.splitext` on POSIX (`posixpath.splitext` with `sep='/'`,
`altsep=None`, `extsep='.'`): split at the last dot when it lies after the
last path separator and some non-dot character of the basename precedes it;
otherwise the extension is empty. -/
def splitext (p : String) : String × String :=
  let l := p.data
  let sepIndex := rfindChar '/' l
  let dotIndex := rfindChar '.' l
  if sepIndex < dotIndex && hasNonDotBetween l sepIndex dotIndex then
    (⟨l.take dotIndex.toNat⟩, ⟨l.drop dotIndex.toNat⟩)
  else
    (p, "")

/-- `ALLOWED_EXTS = {".pdf"}` (src/app.py line 22). -/
def ALLOWED_EXTS : List String := [".pdf"]

/-- `allowed_fileext` (src/app.py lines 57-59):
`os.path.splitext(filename)[1].lower() in ALLOWED_EXTS`. -/
def allowed_fileext (filename : String) : Bool :=
  ALLOWED_EXTS.contains (pyLower (splitext filename).2)

/-- Characters kept by werkzeug's `_filename_ascii_strip_re` substitution:
`[A-Za-z0-9_.-]`. -/
def isSafeFilenameChar (c : Char) : Bool :=
  ('A' ≤ c && c ≤ 'Z') || ('a' ≤ c && c ≤ 'z') || ('0' ≤ c && c ≤ '9') ||
    c == '_' || c == '.' || c == '-'

/-- Python `s.split()` with no arguments: split on runs of whitespace,
discarding empty pieces. -/
def pySplitWs : List Char → List Char → List (List Char)
  | [], acc => if acc.isEmpty then [] else [acc.reverse]
  | c :: rest, acc =>
    if isPySpace c then
      if acc.isEmpty then pySplitWs rest [] else acc.reverse :: pySplitWs rest []
    else
      pySplitWs rest (c :: acc)

/-- werkzeug `secure_filename` on POSIX: NFKD-normalize and drop non-ASCII
codepoints (NFKD is the identity on the ASCII codepoints that survive,
modelled as a filter), replace `os.sep = '/'` by a space (`os.path.altsep`
is `None`), join the whitespace-split pieces with `'_'`, delete every
character outside `[A-Za-z0-9_.-]`, and strip leading/trailing `'.'` and
`'_'` (the `os.name == "nt"` device-file branch is dead on POSIX). -/
def secure_filename (filename : String) : String :=
  let ascii := filename.data.filter (fun c => c.toNat < 128)
  let sepReplaced := ascii.map (fun c => if c == '/' then ' ' else c)
  let joined := List.intercalate ['_'] (pySplitWs sepReplaced [])
  let kept := joined.filter isSafeFilenameChar
  ⟨stripWhile (fun c => c == '.' || c == '_') kept⟩

/-- The environment configuration read once at startup (src/app.py lines
20-34).  Each S3 setting is the result of `os.environ.get`: `none` when the
variable is unset, `some s` when set to `s` (Python truthiness then treats
`None` and `""` as false).  `boto3Available` records whether the
`import boto3` at lines 10-15 succeeded (`boto3 is not None`). -/
structure Config where
  allowedOrigin : String
  uploadDir : String
  s3Bucket : Option String
  s3Region : Option String
  s3AccessKey : Option String
  s3SecretKey : Option String
  boto3Available : Bool

/-- Python truthiness of an `os.environ.get` result (`None` and `""` are
falsy). -/
def envTruthy : Option String → Bool
  | none => false
  | some s => !(s == "")

/-- `USE_S3 = all([S3_BUCKET, S3_REGION, S3_ACCESS_KEY, S3_SECRET_KEY,
boto3 is not None])` (src/app.py line 34). -/
def USE_S3 (cfg : Config) : Bool :=
  envTruthy cfg.s3Bucket && envTruthy cfg.s3Region && envTruthy cfg.s3AccessKey &&
    envTruthy cfg.s3SecretKey && cfg.boto3Available

/-- A werkzeug `FileStorage`: the parsed file part of the multipart form.
`filename` is the client-supplied filename (`None` possible), `content` its
bytes. -/
structure FileStorage where
  filename : Option String
  content : String

/-- werkzeug `FileStorage.__bool__` returns `bool(self.filename)`: a file
part whose filename is `None` or `""` is falsy. -/
def fileStorageTruthy (fs : FileStorage) : Bool :=
  match fs.filename with
  | none => false
  | some s => !(s == "")

/-- Truthiness of `request.files.get("file")`: `None` when the part is
absent, otherwise `FileStorage.__bool__`. -/
def fileTruthy : Option FileStorage → Bool
  | none => false
  | some fs => fileStorageTruthy fs

/-- The parsed pieces of a POST /api/upload request: the three form fields
(`request.form.get` yields `none` when absent) and the file part. -/
structure Request where
  name : Option String
  email : Option String
  company : Option String
  file : Option FileStorage

/-- The persistent state of both storage backends: association lists from
local filesystem path, respectively S3 object key, to stored bytes.
Writes prepend, so `List.lookup` sees the most recent write. -/
structure Store where
  localFs : List (String × String)
  s3 : List (String × String)
deriving DecidableEq

/-- Outcomes of the S3 calls made during one upload request, supplied by
the environment: `putFileErr`/`putMetaErr` are `some e` when
`upload_fileobj` respectively `put_object` raises a
`BotoCoreError`/`ClientError` whose text is `e`; `presignRaw` is the
outcome of `generate_presigned_url` inside `s3_presigned_get`. -/
structure S3Behavior where
  putFileErr : Option String
  putMetaErr : Option String
  presignRaw : Except String String

/-- `s3_presigned_get` (src/app.py lines 93-102): returns the generated
URL, or `None` when the underlying call raises — any exception is caught. -/
def s3_presigned_get (res : Except String String) : Option String :=
  match res with
  | .ok url => some url
  | .error _ => none

/-- The JSON bodies the app produces, one constructor per `jsonify` shape
in src/app.py. -/
inductive Body where
  | error (error : String)
  | errorDetail (error detail : String)
  | okS3 (id bucket pdfKey metaKey : String) (pdfUrl : Option String)
  | okLocal (id folder pdfPath metaPath : String)
  | health (storageMode : String) (bucket : Option String) (time : String)
  | empty
deriving DecidableEq

/-- An HTTP response: status code, JSON body, and headers (an ordered
key-value list, as in werkzeug). -/
structure Resp where
  status : Nat
  body : Body
  headers : List (String × String)
deriving DecidableEq

/-- werkzeug `Headers.__setitem__`: replace every existing entry for the
key with the single new pair. -/
def setHeader (k v : String) (hs : List (String × String)) : List (String × String) :=
  hs.filter (fun p => !(p.1 == k)) ++ [(k, v)]

/-- The `cors` helper (src/app.py lines 44-49): set the four CORS headers
on a response. -/
def cors (cfg : Config) (r : Resp) : Resp :=
  let hs1 := setHeader "Access-Control-Allow-Origin" cfg.allowedOrigin r.headers
  let hs2 := setHeader "Vary" "Origin" hs1
  let hs3 := setHeader "Access-Control-Allow-Headers" "Content-Type, Authorization" hs2
  let hs4 := setHeader "Access-Control-Allow-Methods" "POST, OPTIONS, GET" hs3
  { r with headers := hs4 }

/-- `os.path.join` on POSIX for two components: the second replaces the
first when absolute, otherwise they are joined with `'/'` unless the first
is empty or already ends in `'/'`. -/
def pathJoin (a b : String) : String :=
  if b.data.head? = some '/' then b
  else if a = "" || a.data.getLast? = some '/' then a ++ b
  else a ++ "/" ++ b

/-- The metadata text written by both backends (src/app.py lines 162-167
and 200-204, byte-identical format): newline-separated `key=value` lines in
the order `id`, `name`, `email`, `company`, `original_filename`,
`uploaded_at_utc`, the timestamp suffixed with `Z`. -/
def metaText (itemId name email company original now : String) : String :=
  "id=" ++ itemId ++ "\n" ++ "name=" ++ name ++ "\n" ++ "email=" ++ email ++ "\n" ++
    "company=" ++ company ++ "\n" ++ "original_filename=" ++ original ++ "\n" ++
    "uploaded_at_utc=" ++ now ++ "Z" ++ "\n"

/-- The stored filename `f"input{ext}"` with
`ext = os.path.splitext(original)[1].lower()` (src/app.py lines 147-148). -/
def stored_filename (original : String) : String :=
  "input" ++ pyLower (splitext original).2

/-- The POST /api/upload handler `upload` (src/app.py lines 127-218).
`itemId` is the `uuid.uuid4()` drawn for this request, `now` the
`datetime.utcnow().isoformat()` string, `s3b` the behavior of the S3 calls.
Returns the response (headers empty: CORS headers are added by the
`after_request` hook, see `app`) and the resulting store. -/
def upload (cfg : Config) (st : Store) (req : Request) (itemId now : String)
    (s3b : S3Behavior) : Resp × Store :=
  let name := pyStrip (req.name.getD "")
  let email := pyStrip (req.email.getD "")
  let company := pyStrip (req.company.getD "")
  if name == "" || email == "" || !(fileTruthy req.file) then
    (⟨400, Body.error "name, email, file required", []⟩, st)
  else
    match req.file with
    | none => (⟨400, Body.error "name, email, file required", []⟩, st)
    | some file =>
      let original := secure_filename (file.filename.getD "")
      if original == "" || !(allowed_fileext original) then
        (⟨400, Body.error "Only PDF files allowed", []⟩, st)
      else
        let storedFn := stored_filename original
        if USE_S3 cfg then
          let baseKey := "uploads/" ++ itemId ++ "/"
          let pdfKey := baseKey ++ storedFn
          let metaKey := baseKey ++ "meta.txt"
          match s3b.putFileErr with
          | some e => (⟨500, Body.errorDetail "S3 upload failed" e, []⟩, st)
          | none =>
            let st1 : Store := { st with s3 := (pdfKey, file.content) :: st.s3 }
            let meta := metaText itemId name email company original now
            match s3b.putMetaErr with
            | some e => (⟨500, Body.errorDetail "S3 upload failed" e, []⟩, st1)
            | none =>
              let st2 : Store := { st1 with s3 := (metaKey, meta) :: st1.s3 }
              let presigned := s3_presigned_get s3b.presignRaw
              (⟨201, Body.okS3 itemId (cfg.s3Bucket.getD "") pdfKey metaKey presigned, []⟩, st2)
        else
          let folder := pathJoin cfg.uploadDir itemId
          let pdfPath := pathJoin folder storedFn
          let metaPath := pathJoin folder "meta.txt"
          let st1 : Store := { st with localFs := (pdfPath, file.content) :: st.localFs }
          let meta := metaText itemId name email company original now
          let st2 : Store := { st1 with localFs := (metaPath, meta) :: st1.localFs }
          (⟨201, Body.okLocal itemId folder pdfPath metaPath, []⟩, st2)

/-- The GET /api/health handler (src/app.py lines 108-118). -/
def health (cfg : Config) (now : String) : Resp :=
  ⟨200,
    Body.health (if USE_S3 cfg then "s3" else "local")
      (if USE_S3 cfg then cfg.s3Bucket else none) (now ++ "Z"),
    []⟩

/-- The OPTIONS /api/upload handler `preflight` (src/app.py lines 121-124):
an empty 204 with the CORS headers applied by hand. -/
def preflight (cfg : Config) : Resp :=
  cors cfg ⟨204, Body.empty, []⟩

/-- A request to one of the app's routes, carrying the per-request
nondeterminism (timestamp, fresh UUID, S3 call outcomes) explicitly. -/
inductive AppRequest where
  | healthGet (now : String)
  | uploadOptions
  | uploadPost (req : Request) (itemId now : String) (s3b : S3Behavior)

/-- Route dispatch, before the `after_request` hook runs. -/
def dispatch (cfg : Config) (st : Store) : AppRequest → Resp × Store
  | .healthGet now => (health cfg now, st)
  | .uploadOptions => (preflight cfg, st)
  | .uploadPost req itemId now s3b => upload cfg st req itemId now s3b

/-- The full application: dispatch to the route handler, then the
`after_request` hook `add_cors` (src/app.py lines 52-54) applies `cors` to
every outgoing response. -/
def app (cfg : Config) (st : Store) (r : AppRequest) : Resp × Store :=
  (cors cfg (dispatch cfg st r).1, (dispatch cfg st r).2)

/-! ### Concrete example values used by the witness theorems -/

/-- A configuration with no S3 settings: the local-filesystem backend. -/
def cfgLocal : Config := ⟨"*", "/data/uploads", none, none, none, none, true⟩

/-- A configuration with all four S3 settings set and boto3 importable. -/
def cfgS3 : Config := ⟨"*", "/data/uploads", some "bkt", some "reg", some "ak", some "sk", true⟩

/-- All four S3 settings set, but the boto3 import failed. -/
def cfgS3NoBoto : Config := ⟨"*", "/data/uploads", some "bkt", some "reg", some "ak", some "sk", false⟩

/-- The empty store: no artifacts in either backend. -/
def stEmpty : Store := ⟨[], []⟩

/-- A fully valid submission: `name=Jane`, `email=jane@x.com`,
`company=Acme`, `file=report.pdf`. -/
def reqJane : Request :=
  ⟨some "Jane", some "jane@x.com", some "Acme", some ⟨some "report.pdf", "BYTES"⟩⟩

/-- A submission whose file is a PNG. -/
def reqPng : Request :=
  ⟨some "Jane", some "jane@x.com", some "", some ⟨some "image.png", "B"⟩⟩

/-- S3 behavior where both uploads succeed and URL generation returns a
URL. -/
def s3ok : S3Behavior := ⟨none, none, .ok "u"⟩

/-- S3 behavior where both uploads succeed but presigned-URL generation
raises. -/
def s3presignFail : S3Behavior := ⟨none, none, .error "denied"⟩

/-! ### Helper lemmas -/

theorem allowed_fileext_eq_true_iff (f : String) :
    allowed_fileext f = true ↔ pyLower (splitext f).2 = ".pdf" := by
  simp [allowed_fileext, ALLOWED_EXTS]

theorem stored_filename_of_allowed (f : String) (h : allowed_fileext f = true) :
    stored_filename f = "input.pdf" := by
  rw [stored_filename, (allowed_fileext_eq_true_iff f).mp h]
  decide

theorem allowed_fileext_of_empty_filename (fn : String) (hfn : fn = "")
    (hext : allowed_fileext (secure_filename fn) = true) : False := by
  rw [hfn] at hext
  exact absurd hext (by decide)

theorem upload_headers_empty (cfg : Config) (st : Store) (req : Request)
    (itemId now : String) (s3b : S3Behavior) :
    (upload cfg st req itemId now s3b).1.headers = [] := by
  unfold upload
  dsimp only
  repeat' split
  all_goals rfl

theorem upload_routing (cfg : Config) (st : Store) (req : Request) (itemId now : String)
    (s3b : S3Behavior)
    (h201 : (upload cfg st req itemId now s3b).1.status = 201) :
    if USE_S3 cfg then
      (∃ i b pk mk u, (upload cfg st req itemId now s3b).1.body = Body.okS3 i b pk mk u) ∧
        (upload cfg st req itemId now s3b).2.localFs = st.localFs
    else
      (∃ i f pp mp, (upload cfg st req itemId now s3b).1.body = Body.okLocal i f pp mp) ∧
        (upload cfg st req itemId now s3b).2.s3 = st.s3 := by
  unfold upload at h201 ⊢
  by_cases h1 : (pyStrip (req.name.getD "") == "" || pyStrip (req.email.getD "") == "" ||
      !(fileTruthy req.file)) = true
  · simp only [if_pos h1] at h201
    exact absurd h201 (by decide)
  · simp only [if_neg h1] at h201 ⊢
    rcases hfile : req.file with _ | fs
    · simp only [hfile] at h201
      exact absurd h201 (by decide)
    · simp only [hfile] at h201 ⊢
      by_cases h2 : (secure_filename (fs.filename.getD "") == "" ||
          !(allowed_fileext (secure_filename (fs.filename.getD "")))) = true
      · simp only [if_pos h2] at h201
        exact absurd h201 (by decide)
      · simp only [if_neg h2] at h201 ⊢
        by_cases hs : USE_S3 cfg = true
        · simp only [if_pos hs] at h201 ⊢
          rcases hp1 : s3b.putFileErr with _ | e
          · simp only [hp1] at h201 ⊢
            rcases hp2 : s3b.putMetaErr with _ | e2
            · simp only [hp2] at h201 ⊢
              exact ⟨⟨_, _, _, _, _, rfl⟩, trivial⟩
            · simp only [hp2] at h201
              exact absurd h201 (by decide)
          · simp only [hp1] at h201
            exact absurd h201 (by decide)
        · simp only [if_neg hs] at h201 ⊢
          exact ⟨⟨_, _, _, _, rfl⟩, trivial⟩

/-! ### Claim theorems -/

/-- C1: for every valid submission (file part present with a filename whose
sanitized form has a `.pdf` extension, non-empty trimmed name and email,
and the storage calls succeeding), `upload` returns 201 with the freshly
generated identifier, and both artifacts land under the identifier-scoped
namespace: the file bytes at the `input.pdf` location and the metadata
artifact whose content is exactly `metaText` — the newline-separated
`key=value` lines in the fixed order `id`, `name`, `email`, `company`,
`original_filename`, `uploaded_at_utc` (the timestamp with trailing `Z`) —
carrying the submitted name, email and company (trimmed, as the data model
defines the submission fields) and the sanitized original filename. -/
theorem upload_valid_persists (cfg : Config) (st : Store) (req : Request)
    (itemId now : String) (s3b : S3Behavior) (fs : FileStorage) (fn : String)
    (hf : req.file = some fs) (hfn : fs.filename = some fn)
    (hname : pyStrip (req.name.getD "") ≠ "")
    (hemail : pyStrip (req.email.getD "") ≠ "")
    (hext : allowed_fileext (secure_filename fn) = true)
    (hput1 : s3b.putFileErr = none) (hput2 : s3b.putMetaErr = none) :
    upload cfg st req itemId now s3b =
      if USE_S3 cfg then
        (⟨201, Body.okS3 itemId (cfg.s3Bucket.getD "")
            (("uploads/" ++ itemId ++ "/") ++ "input.pdf")
            (("uploads/" ++ itemId ++ "/") ++ "meta.txt")
            (s3_presigned_get s3b.presignRaw), []⟩,
          ⟨st.localFs,
            ((("uploads/" ++ itemId ++ "/") ++ "meta.txt"),
              metaText itemId (pyStrip (req.name.getD "")) (pyStrip (req.email.getD ""))
                (pyStrip (req.company.getD "")) (secure_filename fn) now) ::
            ((("uploads/" ++ itemId ++ "/") ++ "input.pdf"), fs.content) :: st.s3⟩)
      else
        (⟨201, Body.okLocal itemId (pathJoin cfg.uploadDir itemId)
            (pathJoin (pathJoin cfg.uploadDir itemId) "input.pdf")
            (pathJoin (pathJoin cfg.uploadDir itemId) "meta.txt"), []⟩,
          ⟨(pathJoin (pathJoin cfg.uploadDir itemId) "meta.txt",
              metaText itemId (pyStrip (req.name.getD "")) (pyStrip (req.email.getD ""))
                (pyStrip (req.company.getD "")) (secure_filename fn) now) ::
            (pathJoin (pathJoin cfg.uploadDir itemId) "input.pdf", fs.content) :: st.localFs,
            st.s3⟩) := by
  have hfn0 : fn ≠ "" := fun h0 => allowed_fileext_of_empty_filename fn h0 hext
  have horig : secure_filename fn ≠ "" := by
    intro h0
    rw [h0] at hext
    exact absurd hext (by decide)
  have hstored := stored_filename_of_allowed _ hext
  unfold upload
  have hc : (pyStrip (req.name.getD "") == "" || pyStrip (req.email.getD "") == "" ||
      !(fileTruthy req.file)) = false := by
    simp [hname, hemail, hf, fileTruthy, fileStorageTruthy, hfn, hfn0]
  simp only [hc, hf, hfn]
  simp [horig, hext, hstored, hput1, hput2]
  split <;> simp [hput1, hput2, hstored] <;>
    exact ⟨⟨hname, hemail⟩, by simp [fileTruthy, fileStorageTruthy, hfn, hfn0]⟩

/-- Witness for C1: a concrete valid local-mode submission is accepted
with status 201 and writes exactly the `input.pdf` and `meta.txt`
artifacts, the metadata being the exact `key=value` text. -/
theorem upload_valid_persists_witness :
    upload cfgLocal stEmpty reqJane "ID" "TIME" s3ok =
      (⟨201, Body.okLocal "ID" "/data/uploads/ID" "/data/uploads/ID/input.pdf"
          "/data/uploads/ID/meta.txt", []⟩,
        ⟨[("/data/uploads/ID/meta.txt",
            "id=ID\nname=Jane\nemail=jane@x.com\ncompany=Acme\noriginal_filename=report.pdf\nuploaded_at_utc=TIMEZ\n"),
          ("/data/uploads/ID/input.pdf", "BYTES")], []⟩) := by
  have h := upload_valid_persists cfgLocal stEmpty reqJane "ID" "TIME" s3ok
    ⟨some "report.pdf", "BYTES"⟩ "report.pdf" rfl rfl (by decide) (by decide) (by decide)
    rfl rfl
  rw [h]
  decide

/-- C2: for every submission whose file part is present but whose sanitized
filename does not pass the `.pdf` allow-list (wrong extension, no
extension, or empty), `upload` returns status 400 with an error body and
leaves both storage backends unchanged. -/
theorem upload_disallowed_extension_rejected (cfg : Config) (st : Store) (req : Request)
    (itemId now : String) (s3b : S3Behavior) (fs : FileStorage)
    (hf : req.file = some fs)
    (hext : allowed_fileext (secure_filename (fs.filename.getD "")) = false) :
    (upload cfg st req itemId now s3b).1.status = 400 ∧
    (∃ m, (upload cfg st req itemId now s3b).1.body = Body.error m) ∧
    (upload cfg st req itemId now s3b).2 = st := by
  unfold upload
  cases hc : (pyStrip (req.name.getD "") == "" || pyStrip (req.email.getD "") == "" ||
      !(fileTruthy req.file))
  · simp [hc, hf, hext]
    split <;> simp
  · simp [hc]

/-- Witness for C2: a PNG upload is rejected with 400 and no artifact. -/
theorem upload_disallowed_extension_rejected_witness :
    (upload cfgLocal stEmpty reqPng "ID" "TIME" s3ok).1.status = 400 ∧
    (∃ m, (upload cfgLocal stEmpty reqPng "ID" "TIME" s3ok).1.body = Body.error m) ∧
    (upload cfgLocal stEmpty reqPng "ID" "TIME" s3ok).2 = stEmpty :=
  upload_disallowed_extension_rejected cfgLocal stEmpty reqPng "ID" "TIME" s3ok
    ⟨some "image.png", "B"⟩ rfl (by decide)

/-- C3: for every submission whose trimmed name is empty, whose trimmed
email is empty, or whose file part is absent, `upload` returns status 400
with the machine-readable error `name, email, file required` and the store
is unchanged. -/
theorem upload_missing_required_rejected (cfg : Config) (st : Store) (req : Request)
    (itemId now : String) (s3b : S3Behavior)
    (h : pyStrip (req.name.getD "") = "" ∨ pyStrip (req.email.getD "") = "" ∨
      req.file = none) :
    upload cfg st req itemId now s3b =
      (⟨400, Body.error "name, email, file required", []⟩, st) := by
  unfold upload
  rcases h with h | h | h
  · simp [h]
  · simp [h]
  · simp [h, fileTruthy]

/-- Witness for C3: a submission whose name trims to empty is rejected
with the missing-field error and no write. -/
theorem upload_missing_required_rejected_witness :
    upload cfgLocal stEmpty
        ⟨some " ", some "jane@x.com", none, some ⟨some "report.pdf", "B"⟩⟩
        "ID" "TIME" s3ok =
      (⟨400, Body.error "name, email, file required", []⟩, stEmpty) :=
  upload_missing_required_rejected cfgLocal stEmpty
    ⟨some " ", some "jane@x.com", none, some ⟨some "report.pdf", "B"⟩⟩
    "ID" "TIME" s3ok (Or.inl (by decide))

/-- C4 counterexample: with all four S3 configuration values present but
boto3 unavailable, `USE_S3` is false and the health endpoint reports
`storage_mode "local"` with bucket null — refuting the claim that the
Object Storage variant is used if and only if the four configuration
values are present. -/
theorem use_s3_requires_boto3_counterexample :
    envTruthy cfgS3NoBoto.s3Bucket = true ∧ envTruthy cfgS3NoBoto.s3Region = true ∧
    envTruthy cfgS3NoBoto.s3AccessKey = true ∧ envTruthy cfgS3NoBoto.s3SecretKey = true ∧
    USE_S3 cfgS3NoBoto = false ∧
    health cfgS3NoBoto "TIME" = ⟨200, Body.health "local" none ("TIME" ++ "Z"), []⟩ := by
  decide

/-- C4 (amended): the Object Storage variant is selected if and only if
all four configuration values are present (truthy) AND the boto3 import
succeeded; `health` reports `"s3"` with the bucket exactly when `USE_S3`
is true and `"local"` with bucket null otherwise; and every accepted
upload is routed to the backend selected by `USE_S3`, leaving the other
backend untouched. -/
theorem storage_mode_selection (cfg : Config) (now : String) :
    (USE_S3 cfg = true ↔ envTruthy cfg.s3Bucket = true ∧ envTruthy cfg.s3Region = true ∧
      envTruthy cfg.s3AccessKey = true ∧ envTruthy cfg.s3SecretKey = true ∧
      cfg.boto3Available = true) ∧
    (USE_S3 cfg = true →
      health cfg now = ⟨200, Body.health "s3" cfg.s3Bucket (now ++ "Z"), []⟩) ∧
    (USE_S3 cfg = false →
      health cfg now = ⟨200, Body.health "local" none (now ++ "Z"), []⟩) ∧
    (∀ st req itemId now2 s3b, (upload cfg st req itemId now2 s3b).1.status = 201 →
      if USE_S3 cfg then
        (∃ i b pk mk u, (upload cfg st req itemId now2 s3b).1.body = Body.okS3 i b pk mk u) ∧
          (upload cfg st req itemId now2 s3b).2.localFs = st.localFs
      else
        (∃ i f pp mp, (upload cfg st req itemId now2 s3b).1.body = Body.okLocal i f pp mp) ∧
          (upload cfg st req itemId now2 s3b).2.s3 = st.s3) := by
  refine ⟨?_, ?_, ?_, ?_⟩
  · constructor
    · intro h
      simp only [USE_S3, Bool.and_eq_true] at h
      exact ⟨h.1.1.1.1, h.1.1.1.2, h.1.1.2, h.1.2, h.2⟩
    · intro h
      simp only [USE_S3, Bool.and_eq_true]
      exact ⟨⟨⟨⟨h.1, h.2.1⟩, h.2.2.1⟩, h.2.2.2.1⟩, h.2.2.2.2⟩
  · intro h
    simp [health, h]
  · intro h
    simp [health, h]
  · intro st req itemId now2 s3b h201
    exact upload_routing cfg st req itemId now2 s3b h201

/-- Witness for C4: the complete-S3 configuration selects the S3 backend
and health reports `"s3"` with the bucket name. -/
theorem storage_mode_selection_witness :
    USE_S3 cfgS3 = true ∧
    health cfgS3 "TIME" = ⟨200, Body.health "s3" (some "bkt") ("TIME" ++ "Z"), []⟩ := by
  have h := storage_mode_selection cfgS3 "TIME"
  have h1 : USE_S3 cfgS3 = true := h.1.mpr (by decide)
  exact ⟨h1, h.2.1 h1⟩

/-- C5: in the Object Storage variant, a failing file-upload call yields a
500 response carrying the underlying exception text in the detail field
with nothing written; a failing metadata-upload call after a successful
file upload yields the same 500 response while the already-uploaded file
object remains in the bucket (no rollback); no retry exists in the
semantics. -/
theorem s3_put_failure_500 (cfg : Config) (st : Store) (req : Request)
    (itemId now : String) (s3b : S3Behavior) (fs : FileStorage) (fn : String)
    (hs3 : USE_S3 cfg = true)
    (hf : req.file = some fs) (hfn : fs.filename = some fn)
    (hname : pyStrip (req.name.getD "") ≠ "")
    (hemail : pyStrip (req.email.getD "") ≠ "")
    (hext : allowed_fileext (secure_filename fn) = true) :
    (∀ e, s3b.putFileErr = some e →
      upload cfg st req itemId now s3b =
        (⟨500, Body.errorDetail "S3 upload failed" e, []⟩, st)) ∧
    (∀ e, s3b.putFileErr = none → s3b.putMetaErr = some e →
      upload cfg st req itemId now s3b =
        (⟨500, Body.errorDetail "S3 upload failed" e, []⟩,
          ⟨st.localFs, ((("uploads/" ++ itemId ++ "/") ++ "input.pdf"), fs.content) :: st.s3⟩)) := by
  have hfn0 : fn ≠ "" := fun h0 => allowed_fileext_of_empty_filename fn h0 hext
  have horig : secure_filename fn ≠ "" := by
    intro h0
    rw [h0] at hext
    exact absurd hext (by decide)
  have hstored := stored_filename_of_allowed _ hext
  have hc : (pyStrip (req.name.getD "") == "" || pyStrip (req.email.getD "") == "" ||
      !(fileTruthy req.file)) = false := by
    simp [hname, hemail, hf, fileTruthy, fileStorageTruthy, hfn, hfn0]
  constructor
  · intro e he
    unfold upload
    simp only [hc, hf, hfn]
    simp [horig, hext, hstored, hs3, he]
    exact ⟨⟨hname, hemail⟩, by simp [fileTruthy, fileStorageTruthy, hfn, hfn0]⟩
  · intro e he1 he2
    unfold upload
    simp only [hc, hf, hfn]
    simp [horig, hext, hstored, hs3, he1, he2]
    exact ⟨⟨hname, hemail⟩, by simp [fileTruthy, fileStorageTruthy, hfn, hfn0]⟩

/-- Witness for C5: on the complete-S3 configuration, a metadata-upload
failure after a successful file upload returns 500 with the exception text
and leaves the uploaded file object in the bucket. -/
theorem s3_put_failure_500_witness :
    upload cfgS3 stEmpty reqJane "ID" "TIME" ⟨none, some "boom", .ok "u"⟩ =
      (⟨500, Body.errorDetail "S3 upload failed" "boom", []⟩,
        ⟨stEmpty.localFs,
          ((("uploads/" ++ "ID" ++ "/") ++ "input.pdf"), "BYTES") :: stEmpty.s3⟩) := by
  have h := s3_put_failure_500 cfgS3 stEmpty reqJane "ID" "TIME" ⟨none, some "boom", .ok "u"⟩
    ⟨some "report.pdf", "BYTES"⟩ "report.pdf" (by decide) rfl rfl (by decide) (by decide)
    (by decide)
  exact h.2 "boom" rfl rfl

/-- C6: in the Object Storage variant, when both uploads succeed but
presigned-URL generation raises, `upload` still returns status 201 with
the success body, the `pdf_url` field being null. -/
theorem presign_failure_nonfatal (cfg : Config) (st : Store) (req : Request)
    (itemId now : String) (s3b : S3Behavior) (fs : FileStorage) (fn : String)
    (hs3 : USE_S3 cfg = true)
    (hf : req.file = some fs) (hfn : fs.filename = some fn)
    (hname : pyStrip (req.name.getD "") ≠ "")
    (hemail : pyStrip (req.email.getD "") ≠ "")
    (hext : allowed_fileext (secure_filename fn) = true)
    (hput1 : s3b.putFileErr = none) (hput2 : s3b.putMetaErr = none)
    (e : String) (hpres : s3b.presignRaw = .error e) :
    (upload cfg st req itemId now s3b).1.status = 201 ∧
    (upload cfg st req itemId now s3b).1.body =
      Body.okS3 itemId (cfg.s3Bucket.getD "") (("uploads/" ++ itemId ++ "/") ++ "input.pdf")
        (("uploads/" ++ itemId ++ "/") ++ "meta.txt") none := by
  have hfn0 : fn ≠ "" := fun h0 => allowed_fileext_of_empty_filename fn h0 hext
  have horig : secure_filename fn ≠ "" := by
    intro h0
    rw [h0] at hext
    exact absurd hext (by decide)
  have hstored := stored_filename_of_allowed _ hext
  have hc : (pyStrip (req.name.getD "") == "" || pyStrip (req.email.getD "") == "" ||
      !(fileTruthy req.file)) = false := by
    simp [hname, hemail, hf, fileTruthy, fileStorageTruthy, hfn, hfn0]
  unfold upload
  simp only [hc, hf, hfn]
  simp [horig, hext, hstored, hs3, hput1, hput2, hpres, s3_presigned_get, hname, hemail,
    fileTruthy, fileStorageTruthy, hfn, hfn0]

/-- Witness for C6: concrete upload with failing URL generation still
returns 201 and a null URL. -/
theorem presign_failure_nonfatal_witness :
    (upload cfgS3 stEmpty reqJane "ID" "TIME" s3presignFail).1.status = 201 ∧
    (upload cfgS3 stEmpty reqJane "ID" "TIME" s3presignFail).1.body =
      Body.okS3 "ID" (cfgS3.s3Bucket.getD "") (("uploads/" ++ "ID" ++ "/") ++ "input.pdf")
        (("uploads/" ++ "ID" ++ "/") ++ "meta.txt") none :=
  presign_failure_nonfatal cfgS3 stEmpty reqJane "ID" "TIME" s3presignFail
    ⟨some "report.pdf", "BYTES"⟩ "report.pdf" (by decide) rfl rfl (by decide) (by decide)
    (by decide) rfl rfl "denied" rfl

/-- C7 counterexample: the submission `A.PDF` is accepted (its extension
is `.pdf` case-insensitively), yet the persisted artifact is named
`input.pdf`, not `input` + the original extension `.PDF`: the extension is
lowercased, not preserved exactly as submitted. -/
theorem stored_extension_not_preserved_counterexample :
    (splitext (secure_filename "A.PDF")).2 = ".PDF" ∧
    allowed_fileext (secure_filename "A.PDF") = true ∧
    (upload cfgLocal stEmpty ⟨some "Jane", some "jane@x.com", some "Acme",
        some ⟨some "A.PDF", "BYTES"⟩⟩ "ID" "TIME" s3ok).1.body =
      Body.okLocal "ID" "/data/uploads/ID" "/data/uploads/ID/input.pdf"
        "/data/uploads/ID/meta.txt" ∧
    "input" ++ (splitext (secure_filename "A.PDF")).2 ≠ "input.pdf" := by
  decide

/-- C7 (amended): the persisted file artifact is renamed to `input`
followed by the LOWERCASED extension of the sanitized client filename;
since only `.pdf` (case-insensitive) is accepted, the stored name is
always exactly `input.pdf`. -/
theorem stored_filename_lowercased (original : String)
    (h : allowed_fileext original = true) :
    pyLower (splitext original).2 = ".pdf" ∧ stored_filename original = "input.pdf" :=
  ⟨(allowed_fileext_eq_true_iff original).mp h, stored_filename_of_allowed original h⟩

/-- Witness for C7 (amended): evaluated at the accepted filename
`A.PDF`. -/
theorem stored_filename_lowercased_witness :
    allowed_fileext "A.PDF" = true ∧
    (pyLower (splitext "A.PDF").2 = ".pdf" ∧ stored_filename "A.PDF" = "input.pdf") :=
  ⟨by decide, stored_filename_lowercased "A.PDF" (by decide)⟩

/-- C8: every response the application produces — health, preflight, and
every outcome of the upload handler (success, validation error, storage
error) — carries the `Access-Control-Allow-Origin` header set to the
configured allowed origin, via the `after_request` hook. -/
theorem every_response_carries_cors (cfg : Config) (st : Store) (r : AppRequest) :
    ((app cfg st r).1.headers).lookup "Access-Control-Allow-Origin" =
      some cfg.allowedOrigin := by
  cases r with
  | healthGet now => rfl
  | uploadOptions => rfl
  | uploadPost req itemId now s3b =>
    have h := upload_headers_empty cfg st req itemId now s3b
    simp [app, dispatch, cors, setHeader, h, List.lookup]

/-- C9: when the boto3 import failed, `USE_S3` is false even with all four
S3 configuration values present, the health endpoint reports
`storage_mode "local"` with bucket null, no upload ever touches the S3
store, and every accepted upload produces a local-storage response. -/
theorem boto3_missing_falls_back_local (cfg : Config) (now : String)
    (hb : envTruthy cfg.s3Bucket = true) (hr : envTruthy cfg.s3Region = true)
    (ha : envTruthy cfg.s3AccessKey = true) (hk : envTruthy cfg.s3SecretKey = true)
    (hboto : cfg.boto3Available = false) :
    USE_S3 cfg = false ∧
    health cfg now = ⟨200, Body.health "local" none (now ++ "Z"), []⟩ ∧
    (∀ st req itemId now2 s3b, (upload cfg st req itemId now2 s3b).2.s3 = st.s3) ∧
    (∀ st req itemId now2 s3b, (upload cfg st req itemId now2 s3b).1.status = 201 →
      ∃ i f pp mp, (upload cfg st req itemId now2 s3b).1.body = Body.okLocal i f pp mp) := by
  have hus : USE_S3 cfg = false := by simp [USE_S3, hboto]
  refine ⟨hus, by simp [health, hus], ?_, ?_⟩
  · intro st req itemId now2 s3b
    unfold upload
    dsimp only
    repeat' split
    all_goals simp_all
  · intro st req itemId now2 s3b h201
    have h := upload_routing cfg st req itemId now2 s3b h201
    rw [hus] at h
    simpa using h.1

/-- Witness for C9: all four S3 values present but boto3 missing falls
back to local mode; a concrete upload leaves the S3 store empty. -/
theorem boto3_missing_falls_back_local_witness :
    USE_S3 cfgS3NoBoto = false ∧
    health cfgS3NoBoto "TIME" = ⟨200, Body.health "local" none ("TIME" ++ "Z"), []⟩ ∧
    (upload cfgS3NoBoto stEmpty reqJane "ID" "T2" s3ok).2.s3 = stEmpty.s3 := by
  have h := boto3_missing_falls_back_local cfgS3NoBoto "TIME"
    (by decide) (by decide) (by decide) (by decide) rfl
  exact ⟨h.1, h.2.1, h.2.2.1 stEmpty reqJane "ID" "T2" s3ok⟩

/-- C10 counterexample: a present file part with an empty client filename
is falsy (werkzeug `FileStorage.__bool__`), so the handler returns the
missing-field error `name, email, file required`, not
`Only PDF files allowed` as the claim states. -/
theorem empty_filename_counterexample :
    upload cfgLocal stEmpty ⟨some "Jane", some "jane@x.com", none, some ⟨some "", "BYTES"⟩⟩
        "ID" "TIME" s3ok =
      (⟨400, Body.error "name, email, file required", []⟩, stEmpty) ∧
    Body.error "name, email, file required" ≠ Body.error "Only PDF files allowed" := by
  decide

/-- C10 (amended): when the file part is present but its filename is
missing or empty, the `FileStorage` is falsy and the handler returns 400
with the missing-field error `name, email, file required`; when the
filename is non-empty but sanitization reduces it to the empty string (and
name and email are otherwise valid), the handler returns 400 with
`Only PDF files allowed`. In both cases nothing is written to either
backend. -/
theorem empty_filename_behavior (cfg : Config) (st : Store) (nm em co : Option String)
    (fs : FileStorage) (itemId now : String) (s3b : S3Behavior) :
    ((fs.filename = none ∨ fs.filename = some "") →
      upload cfg st ⟨nm, em, co, some fs⟩ itemId now s3b =
        (⟨400, Body.error "name, email, file required", []⟩, st)) ∧
    (∀ fn, fs.filename = some fn → fn ≠ "" →
      pyStrip (nm.getD "") ≠ "" → pyStrip (em.getD "") ≠ "" →
      secure_filename fn = "" →
      upload cfg st ⟨nm, em, co, some fs⟩ itemId now s3b =
        (⟨400, Body.error "Only PDF files allowed", []⟩, st)) := by
  constructor
  · intro h
    unfold upload
    rcases h with h | h <;> simp [fileTruthy, fileStorageTruthy, h]
  · intro fn hfn hfnne hnm hem hsec
    unfold upload
    have hc : (pyStrip (nm.getD "") == "" || pyStrip (em.getD "") == "" ||
        !(fileTruthy (some fs))) = false := by
      simp [hnm, hem, fileTruthy, fileStorageTruthy, hfn, hfnne]
    simp only [hc, hfn]
    simp [hsec]

/-- Witness for C10 (amended): filename `...` sanitizes to the empty
string and draws the `Only PDF files allowed` rejection. -/
theorem empty_filename_behavior_witness :
    upload cfgLocal stEmpty
        ⟨some "Jane", some "jane@x.com", none, some ⟨some "...", "BYTES"⟩⟩
        "ID" "TIME" s3ok =
      (⟨400, Body.error "Only PDF files allowed", []⟩, stEmpty) := by
  have h := empty_filename_behavior cfgLocal stEmpty (some "Jane") (some "jane@x.com") none
    ⟨some "...", "BYTES"⟩ "ID" "TIME" s3ok
  exact h.2 "..." rfl (by decide) (by decide) (by decide) (by decide)

end DraftQ
